import Mathlib

/-
Verification development for the GEOSX flow-assembly core.

Shallow embedding over ℚ (exact rational arithmetic standing in for real64)
of the code in:
  src/coreComponents/physicsSolvers/fluidFlow/SinglePhaseFVMKernels.hpp
  src/coreComponents/physicsSolvers/fluidFlow/TwoPhaseBase.cpp
  src/coreComponents/constitutive/solid/DamageVolDev.hpp
-/

/-! ## FluxKernelHelper::apertureForPermeablityCalculation
Specializations for INTEGRATION_OPTION 0, 1, 2
(SinglePhaseFVMKernels.hpp lines 84-125).  Each returns the pair
(aperTerm, dAperTerm_dAper). -/

/-- Option 0, forward Euler: aperTerm = aper0^3, zero derivative. -/
def apertureForPermeablityCalculation0 (aper0 _aper : ℚ) : ℚ × ℚ :=
  (aper0 * aper0 * aper0, 0)

/-- Option 1, exact/Simpson integral of the cubic aperture term. -/
def apertureForPermeablityCalculation1 (aper0 aper : ℚ) : ℚ × ℚ :=
  ((1/4) * (aper0 * aper0 * aper0 +
            aper0 * aper0 * aper +
            aper0 * aper * aper +
            aper * aper * aper),
   (1/4) * (aper0 * aper0 +
            2 * aper0 * aper +
            3 * aper * aper))

/-- Option 2, backward Euler: aperTerm = aper^3, derivative 3*aper^2. -/
def apertureForPermeablityCalculation2 (_aper0 aper : ℚ) : ℚ × ℚ :=
  (aper * aper * aper, 3 * aper * aper)

/-- C3 counterexample: at aper0 = aper = 1 the three integration rules do
NOT all return the same (aperTerm, dAperTerm_dAper) pair: the derivatives
are 0, 3/2 and 3 respectively. -/
theorem aperture_rules_derivative_mismatch :
    apertureForPermeablityCalculation0 1 1 ≠ apertureForPermeablityCalculation1 1 1 := by
  norm_num [apertureForPermeablityCalculation0, apertureForPermeablityCalculation1,
    Prod.ext_iff]

/-- C3 (amended): when the current aperture equals the start-of-step aperture
(aper == aper0 == a), the three specializations return the same aperture term
a^3, but their derivatives are 0, (3/2)a^2 and 3a^2 respectively, which
coincide only at a = 0. -/
theorem aperture_rules_agree_on_value (a : ℚ) :
    (apertureForPermeablityCalculation0 a a).1 = a ^ 3 ∧
    (apertureForPermeablityCalculation1 a a).1 = a ^ 3 ∧
    (apertureForPermeablityCalculation2 a a).1 = a ^ 3 ∧
    (apertureForPermeablityCalculation0 a a).2 = 0 ∧
    (apertureForPermeablityCalculation1 a a).2 = (3/2) * a ^ 2 ∧
    (apertureForPermeablityCalculation2 a a).2 = 3 * a ^ 2 := by
  refine ⟨?_, ?_, ?_, ?_, ?_, ?_⟩ <;>
    simp only [apertureForPermeablityCalculation0,
      apertureForPermeablityCalculation1,
      apertureForPermeablityCalculation2] <;>
    ring

/-! ## FluxKernel::Compute (two-point variants)
SinglePhaseFVMKernels.hpp lines 199-289 (cross-region variant) and
298-384 (single-region variant).  The two variants differ only in how the
element fields are addressed (region/subregion/element triples versus plain
element indices); once the per-stencil-entry data is gathered the arithmetic
is identical, with densWeight = 0.5 in the first variant and
1/numElems = 1/2 in the second (numElems =
CellElementStencilTPFA::NUM_POINT_IN_FLUX = 2 for a two-point flux, a
constant of the out-of-scope finite-volume collaborator).  Both are embedded
by one function over the gathered per-entry values. -/

/-- The data of one stencil entry of a two-point connection: the stencil
weight and the fields of the element it addresses. -/
structure StencilEntry where
  weight : ℚ
  pres : ℚ
  dPres : ℚ
  gravCoef : ℚ
  dens : ℚ
  dDens_dPres : ℚ
  mob : ℚ
  dMob_dPres : ℚ
deriving DecidableEq

/-- Out-of-range default used for list lookups (never reached for the
stencil sizes the kernel is called with). -/
def zeroEntry : StencilEntry := ⟨0, 0, 0, 0, 0, 0, 0, 0⟩

/-- densWeight: 0.5 in both two-point variants. -/
def densWeight : ℚ := 1/2

/-- Upwind slot selection: localIndex const k_up = (potDif >= 0) ? 0 : 1. -/
def computeKUp (potDif : ℚ) : ℕ :=
  if potDif ≥ 0 then 0 else 1

/-- The MPFA-style potential difference accumulated over the stencil:
potDif += weight * (pres + dPres - densMean * gravCoef), with
densMean the densWeight-weighted mean of the two primary elements. -/
def potDifOf (entries : List StencilEntry) : ℚ :=
  let densMean := densWeight * (entries.getD 0 zeroEntry).dens +
                  densWeight * (entries.getD 1 zeroEntry).dens
  (entries.map fun e => e.weight * (e.pres + e.dPres - densMean * e.gravCoef)).sum

/-- Local outputs of the two-point Compute: the two flux slots and the two
Jacobian rows (one column per stencil entry). -/
structure ComputeResult where
  flux0 : ℚ
  flux1 : ℚ
  fluxJacobian0 : List ℚ
  fluxJacobian1 : List ℚ
deriving DecidableEq

/-- FluxKernel::Compute, two-point variants, over the gathered stencil
entries (stencilSize = entries.length). -/
def Compute (entries : List StencilEntry) (dt : ℚ) : ComputeResult :=
  let dDensMean_dP : ℕ → ℚ := fun ke =>
    if ke = 0 then densWeight * (entries.getD 0 zeroEntry).dDens_dPres
    else if ke = 1 then densWeight * (entries.getD 1 zeroEntry).dDens_dPres
    else 0
  let potDif := potDifOf entries
  let sumWeightGrav := (entries.map fun e => e.weight * e.gravCoef).sum
  let k_up := computeKUp potDif
  let up := entries.getD k_up zeroEntry
  let fluxVal := up.mob * potDif
  let dFlux_dP : ℕ → ℚ := fun ke =>
    up.mob * ((entries.getD ke zeroEntry).weight - dDensMean_dP ke * sumWeightGrav)
      + (if ke = k_up then up.dMob_dPres * potDif else 0)
  let jac0 := (List.range entries.length).map fun ke => dt * dFlux_dP ke
  { flux0 := dt * fluxVal
    flux1 := -(dt * fluxVal)
    fluxJacobian0 := jac0
    fluxJacobian1 := jac0.map fun x => -x }

/-- C8: in the two-point Compute variants every Jacobian column satisfies
fluxJacobian[1][ke] == -fluxJacobian[0][ke]. -/
theorem two_point_jacobian_antisym (entries : List StencilEntry) (dt : ℚ) (ke : ℕ) :
    ((Compute entries dt).fluxJacobian1).get? ke =
      (((Compute entries dt).fluxJacobian0).get? ke).map (fun x => -x) := by
  simp only [Compute]
  exact List.get?_map _ _ _

/-- Helper: the potential difference of a zero-gravity two-cell connection
with stencil weights T and -T reduces to T * ((p1 + dp1) - (p2 + dp2)). -/
theorem potDif_two_cell_zero_grav (T p1 dp1 d1 dd1 m1 dm1 p2 dp2 d2 dd2 m2 dm2 : ℚ) :
    potDifOf [⟨T, p1, dp1, 0, d1, dd1, m1, dm1⟩, ⟨-T, p2, dp2, 0, d2, dd2, m2, dm2⟩] =
      T * ((p1 + dp1) - (p2 + dp2)) := by
  simp only [potDifOf, List.getD, List.map_cons, List.map_nil, List.sum_cons,
    List.sum_nil]
  ring

/-- C2: for a two-cell zero-gravity connection with stencil weights T and -T,
flux[0] = dt * M_up * (T * (p1 - p2)) where M_up is the mobility of the
upwind slot, the upwind slot is 0 exactly when the potential difference is
non-negative, and a tie (potential difference zero) selects slot 0. -/
theorem two_point_flux_formula (dt T p1 dp1 d1 dd1 m1 dm1 p2 dp2 d2 dd2 m2 dm2 : ℚ) :
    (Compute [⟨T, p1, dp1, 0, d1, dd1, m1, dm1⟩, ⟨-T, p2, dp2, 0, d2, dd2, m2, dm2⟩] dt).flux0
        = dt * (if computeKUp (T * ((p1 + dp1) - (p2 + dp2))) = 0 then m1 else m2)
             * (T * ((p1 + dp1) - (p2 + dp2)))
      ∧ (∀ potDif : ℚ, potDif ≥ 0 → computeKUp potDif = 0)
      ∧ computeKUp 0 = 0 := by
  refine ⟨?_, ?_, ?_⟩
  · simp only [Compute, potDif_two_cell_zero_grav, computeKUp]
    by_cases h : T * ((p1 + dp1) - (p2 + dp2)) ≥ 0
    · simp only [if_pos h, List.getD_cons_zero, if_true]
      ring
    · simp only [if_neg h, List.getD_cons_succ, List.getD_cons_zero]
      simp
      ring
  · intro potDif h
    simp [computeKUp, h]
  · simp [computeKUp]

/-- C2 witness at a concrete input, discharging the non-negativity
hypothesis of the upwind-selection conjunct at potDif = 2. -/
theorem two_point_flux_formula_witness :
    (Compute [⟨2, 3, 0, 0, 1, 0, 5, 0⟩, ⟨-2, 1, 0, 0, 1, 0, 7, 0⟩] 1).flux0
        = 1 * (if computeKUp (2 * ((3 + 0) - (1 + 0))) = 0 then 5 else 7)
             * (2 * ((3 + 0) - (1 + 0)))
      ∧ computeKUp 2 = 0
      ∧ computeKUp 0 = 0 := by
  exact ⟨(two_point_flux_formula 1 2 3 0 1 0 5 0 1 0 1 0 7 0).1,
         (two_point_flux_formula 1 2 3 0 1 0 5 0 1 0 1 0 7 0).2.1 2 (by norm_num),
         (two_point_flux_formula 1 2 3 0 1 0 5 0 1 0 1 0 7 0).2.2⟩

/-! ## FluxKernel::ComputeJunction (SinglePhaseFVMKernels.hpp lines 394-743)
Embedded at the granularity the C1 claim quantifies over: the body of the
double loop over element pairs (k[0], k[1]) (lines 550-742), which is the
only place the local flux vector is written.  The aperture terms use
apertureForPermeablityCalculation<2> (the PERM_CALC==1 branch, line 524) and
sumOfWeights is accumulated over all junction elements (line 547).
Quantities the source reads from out-of-scope collaborators (mesh node
positions and displacements, face normals, the surface-generation and
hydrofracture solvers, the source-flux boundary condition) enter as inputs:
tipLoc, meshSize, viscosity, the trailing-face/face-map data that determines
the tip-element set, and the scalars edgeLength, averageGap and gradP whose
source computation uses irrational powers of collaborator data.  The
Jacobian and aperture-derivative writes of the pair body are not modelled
(no claim references them). -/

/-- The data of one junction stencil entry: the global element index used
for tip-element classification, the stencil weight, and element fields. -/
structure JunctionElem where
  elemIndex : ℕ
  weight : ℚ
  pres : ℚ
  dPres : ℚ
  gravCoef : ℚ
  dens : ℚ
  dDens_dPres : ℚ
  mob : ℚ
  dMob_dPres : ℚ
  aperture0 : ℚ
  aperture : ℚ
deriving DecidableEq

/-- aperTerm[k] of a junction element, via integration option 2. -/
def aperTermOf (e : JunctionElem) : ℚ :=
  (apertureForPermeablityCalculation2 e.aperture0 e.aperture).1

/-- sumOfWeights += aperTerm[k] * stencilWeights[k] over the junction. -/
def sumOfWeightsOf (elems : List JunctionElem) : ℚ :=
  (elems.map fun e => aperTermOf e * e.weight).sum

/-- The tip-element set: a face element i is a tip element when one of its
two faces (faceMap[i][j]) is a trailing face (lines 493-515). -/
def tipElementsOf (trailingFaces : List ℕ) (faceMap : List (List ℕ)) : List ℕ :=
  (List.range faceMap.length).filter fun i =>
    ((faceMap.getD i []).any fun f => trailingFaces.contains f)

/-- Collaborator-supplied data read by the tip-override branch. -/
structure TipEnv where
  tipLoc : ℚ
  meshSize : ℚ
  viscosity : ℚ
  tipElements : List ℕ
  edgeLength : ℚ
  averageGap : ℚ
  gradP : ℚ
deriving DecidableEq

/-- The guard of the tip-override branch for a pair (e0, e1): tipLoc beyond
one mesh size (line 618), viscosity-dominated regime (line 620), and exactly
one of the two elements classified as a tip element (tempCount == 1,
lines 624-644). -/
def tipOverrideTaken (env : TipEnv) (e0 e1 : JunctionElem) : Prop :=
  env.tipLoc > 1 * env.meshSize ∧ env.viscosity ≥ 2/1000 ∧
    env.tipElements.contains e0.elemIndex ≠ env.tipElements.contains e1.elemIndex

instance (env : TipEnv) (e0 e1 : JunctionElem) :
    Decidable (tipOverrideTaken env e0 e1) := by
  unfold tipOverrideTaken
  infer_instance

/-- The contributions one pair iteration adds to flux[k[0]] and flux[k[1]]. -/
structure PairContrib where
  dflux0 : ℚ
  dflux1 : ℚ
deriving DecidableEq

/-- One iteration of the pair loop of ComputeJunction, restricted to its
writes into the local flux vector.  In the tip-override branch the source
performs flux[tipElmtIndex] -= 0.0 and
flux[channelElmtIndex] += modifiedFluxVal (lines 703-704), zeroes fluxVal
(line 706), and then falls through to flux[k[0]] += fluxVal,
flux[k[1]] -= fluxVal (lines 729-730). -/
def ComputeJunctionPair (env : TipEnv) (meanPermCoeff dt sumOfWeights : ℚ)
    (e0 e1 : JunctionElem) : PairContrib :=
  let aT0 := aperTermOf e0
  let aT1 := aperTermOf e1
  let c := meanPermCoeff
  let harmonicWeight := (e0.weight * aT0) * (e1.weight * aT1) / sumOfWeights
  let weight := c * harmonicWeight
                + (1 - c) * (1/4) * (e0.weight * aT0 + e1.weight * aT1)
  let densMean := (1/2) * (e0.dens + e1.dens)
  let potDif := ((e0.pres + e0.dPres) - (e1.pres + e1.dPres))
                - densMean * (e0.gravCoef - e1.gravCoef)
  let k_up := computeKUp potDif
  let mobility := if k_up = 0 then e0.mob else e1.mob
  let fluxVal := mobility * weight * potDif * dt
  if tipOverrideTaken env e0 e1 then
    let modifiedFluxVal := dt * mobility * (env.edgeLength / 12)
                           * env.averageGap ^ 3 * env.gradP
    if env.tipElements.contains e0.elemIndex then
      { dflux0 := 0, dflux1 := modifiedFluxVal }
    else
      { dflux0 := modifiedFluxVal, dflux1 := 0 }
  else
    { dflux0 := fluxVal, dflux1 := -fluxVal }

/-- C1 counterexample: a junction pair on which the tip-override branch
fires with a non-zero modified tip flux; the contributions to the two flux
slots are (0, 1), which are not exact negatives of each other.  The tip
element set is computed from a trailing-face list and face map in which
face element 0 owns trailing face 0. -/
theorem tip_override_breaks_flux_pairing :
    (ComputeJunctionPair
        ⟨2, 1, 1, tipElementsOf [0] [[0, 1], [2, 3]], 12, 1, 1⟩ (1/2) 1
        (sumOfWeightsOf [⟨0, 1, 1, 0, 0, 1, 0, 1, 0, 1, 1⟩,
                         ⟨1, 1, 0, 0, 0, 1, 0, 1, 0, 1, 1⟩])
        ⟨0, 1, 1, 0, 0, 1, 0, 1, 0, 1, 1⟩
        ⟨1, 1, 0, 0, 0, 1, 0, 1, 0, 1, 1⟩).dflux0
      ≠ -(ComputeJunctionPair
        ⟨2, 1, 1, tipElementsOf [0] [[0, 1], [2, 3]], 12, 1, 1⟩ (1/2) 1
        (sumOfWeightsOf [⟨0, 1, 1, 0, 0, 1, 0, 1, 0, 1, 1⟩,
                         ⟨1, 1, 0, 0, 0, 1, 0, 1, 0, 1, 1⟩])
        ⟨0, 1, 1, 0, 0, 1, 0, 1, 0, 1, 1⟩
        ⟨1, 1, 0, 0, 0, 1, 0, 1, 0, 1, 1⟩).dflux1 := by
  norm_num [ComputeJunctionPair, tipOverrideTaken, tipElementsOf, sumOfWeightsOf,
    aperTermOf, apertureForPermeablityCalculation2, computeKUp, List.contains,
    List.range, List.range.loop, List.filter, List.any]

/-- C1 (amended): the local flux pairing flux[from] == -flux[to] holds
exactly in the two-point Compute variants unconditionally, and in every
ComputeJunction pair on which the tip-override branch is not taken; when the
branch is taken the tip slot receives no contribution while the channel slot
receives the modified tip flux, so the pairing can fail there. -/
theorem flux_antisymmetry_outside_tip_override :
    (∀ entries dt, (Compute entries dt).flux1 = -(Compute entries dt).flux0) ∧
    (∀ env c dt sumW e0 e1, ¬ tipOverrideTaken env e0 e1 →
      (ComputeJunctionPair env c dt sumW e0 e1).dflux1 =
        -(ComputeJunctionPair env c dt sumW e0 e1).dflux0) := by
  constructor
  · intro entries dt
    rfl
  · intro env c dt sumW e0 e1 h
    simp only [ComputeJunctionPair, if_neg h]

/-- C1 witness at a concrete input with the tip-override branch not taken. -/
theorem flux_antisymmetry_outside_tip_override_witness :
    ¬ tipOverrideTaken ⟨0, 1, 1, [], 12, 1, 1⟩
        ⟨0, 1, 1, 0, 0, 1, 0, 1, 0, 1, 1⟩
        ⟨1, 1, 0, 0, 0, 1, 0, 1, 0, 1, 1⟩ ∧
    (ComputeJunctionPair ⟨0, 1, 1, [], 12, 1, 1⟩ (1/2) 1 2
        ⟨0, 1, 1, 0, 0, 1, 0, 1, 0, 1, 1⟩
        ⟨1, 1, 0, 0, 0, 1, 0, 1, 0, 1, 1⟩).dflux1 =
      -(ComputeJunctionPair ⟨0, 1, 1, [], 12, 1, 1⟩ (1/2) 1 2
        ⟨0, 1, 1, 0, 0, 1, 0, 1, 0, 1, 1⟩
        ⟨1, 1, 0, 0, 0, 1, 0, 1, 0, 1, 1⟩).dflux0 :=
  ⟨by norm_num [tipOverrideTaken],
   flux_antisymmetry_outside_tip_override.2
     ⟨0, 1, 1, [], 12, 1, 1⟩ (1/2) 1 2 _ _
     (by norm_num [tipOverrideTaken])⟩

/-! ## TwoPhaseBase::CheckSystemSolution (TwoPhaseBase.cpp lines 551-608)
Per non-ghost cell the candidate update is applied to the pressure dof and
to the (single) independent saturation dof and the result bound-checked;
localCheck starts at 1 and is set to 0 on any violation; the global result
is MpiWrapper::Min of the per-rank localCheck values, converted to bool. -/

/-- The per-cell state read by CheckSystemSolution: the ghost rank, the
primary unknowns with their deltas, and the candidate linear-solution
entries at the cell's pressure and saturation dofs. -/
structure CellCheckState where
  ghostRank : ℤ
  pres : ℚ
  dPres : ℚ
  sat : ℚ
  dSat : ℚ
  solPres : ℚ
  solSat : ℚ
deriving DecidableEq

/-- newPres = pres + dPres + scalingFactor * localSolution[pressure dof]. -/
def newPresOf (scalingFactor : ℚ) (c : CellCheckState) : ℚ :=
  c.pres + c.dPres + scalingFactor * c.solPres

/-- newPhaseSat = phaseSat[0] + dPhaseSat[0] + scalingFactor * localSolution[sat dof]. -/
def newSatOf (scalingFactor : ℚ) (c : CellCheckState) : ℚ :=
  c.sat + c.dSat + scalingFactor * c.solSat

/-- The loop body: ghost cells are skipped; otherwise localCheck is set to 0
when newPres < 0.0, and then set to 0 when newPhaseSat < 0.0 or > 1.0. -/
def checkCellStep (scalingFactor : ℚ) (localCheck : ℤ) (c : CellCheckState) : ℤ :=
  if 0 ≤ c.ghostRank then localCheck
  else
    let lc1 := if newPresOf scalingFactor c < 0 then 0 else localCheck
    if newSatOf scalingFactor c < 0 ∨ 1 < newSatOf scalingFactor c then 0 else lc1

/-- The per-rank check: int localCheck = 1, then the loop over cells. -/
def localCheckOf (scalingFactor : ℚ) (cells : List CellCheckState) : ℤ :=
  cells.foldl (checkCellStep scalingFactor) 1

/-- int const globalCheck = MpiWrapper::Min(localCheck); return globalCheck
(converted to bool: nonzero means accepted). -/
def CheckSystemSolution (scalingFactor : ℚ)
    (ranks : List (List CellCheckState)) : Bool :=
  if (ranks.map (localCheckOf scalingFactor)).foldl min 1 = 0 then false else true

/-- A non-ghost cell violates the bounds when its updated pressure is
negative or its updated saturation leaves [0, 1]. -/
def cellViolates (scalingFactor : ℚ) (c : CellCheckState) : Prop :=
  newPresOf scalingFactor c < 0 ∨ newSatOf scalingFactor c < 0 ∨
    1 < newSatOf scalingFactor c

/-- One step of the cell loop yields 0 exactly when the accumulator was
already 0 or the cell is non-ghost and violating. -/
theorem checkCellStep_eq_zero (sf : ℚ) (a : ℤ) (c : CellCheckState) :
    checkCellStep sf a c = 0 ↔ a = 0 ∨ (c.ghostRank < 0 ∧ cellViolates sf c) := by
  simp only [checkCellStep, cellViolates]
  split_ifs with h1 h2 h3
  · constructor
    · exact fun h => Or.inl h
    · rintro (h | ⟨hg, _⟩)
      · exact h
      · omega
  · constructor
    · intro _
      exact Or.inr ⟨by omega, Or.inr h2⟩
    · intro _
      rfl
  · constructor
    · intro _
      exact Or.inr ⟨by omega, Or.inl h3⟩
    · intro _
      rfl
  · constructor
    · exact fun h => Or.inl h
    · rintro (h | ⟨_, hv⟩)
      · exact h
      · rcases hv with hv | hv | hv
        · exact absurd hv h3
        · exact absurd (Or.inl hv) h2
        · exact absurd (Or.inr hv) h2

/-- The cell fold yields 0 exactly when the start value was 0 or some
non-ghost cell violates the bounds. -/
theorem checkFold_eq_zero (sf : ℚ) (cells : List CellCheckState) :
    ∀ a : ℤ, cells.foldl (checkCellStep sf) a = 0 ↔
      a = 0 ∨ ∃ c ∈ cells, c.ghostRank < 0 ∧ cellViolates sf c := by
  induction cells with
  | nil => simp
  | cons c rest ih =>
    intro a
    rw [List.foldl_cons, ih, checkCellStep_eq_zero]
    constructor
    · rintro ((hz | hc) | ⟨x, hx, hv⟩)
      · exact Or.inl hz
      · exact Or.inr ⟨c, List.mem_cons_self c rest, hc⟩
      · exact Or.inr ⟨x, List.mem_cons_of_mem c hx, hv⟩
    · rintro (hz | ⟨x, hx, hv⟩)
      · exact Or.inl (Or.inl hz)
      · rcases List.mem_cons.mp hx with hxc | hxr
        · subst hxc
          exact Or.inl (Or.inr hv)
        · exact Or.inr ⟨x, hxr, hv⟩

/-- The cell fold keeps its value in {0, 1}. -/
theorem checkFold_zero_or_one (sf : ℚ) (cells : List CellCheckState) :
    ∀ a : ℤ, a = 0 ∨ a = 1 →
      cells.foldl (checkCellStep sf) a = 0 ∨ cells.foldl (checkCellStep sf) a = 1 := by
  induction cells with
  | nil =>
    intro a ha
    simpa using ha
  | cons c rest ih =>
    intro a ha
    rw [List.foldl_cons]
    apply ih
    simp only [checkCellStep]
    split_ifs <;> omega

/-- localCheck only takes the values 0 and 1. -/
theorem localCheckOf_zero_or_one (sf : ℚ) (cells : List CellCheckState) :
    localCheckOf sf cells = 0 ∨ localCheckOf sf cells = 1 :=
  checkFold_zero_or_one sf cells 1 (Or.inr rfl)

/-- Folding min over a list of 0/1 values starting at 1 yields 0 exactly
when some value is 0. -/
theorem foldl_min_eq_zero (l : List ℤ) (hl : ∀ x ∈ l, x = 0 ∨ x = 1) :
    ∀ a : ℤ, (a = 0 ∨ a = 1) →
      (l.foldl min a = 0 ↔ a = 0 ∨ ∃ x ∈ l, x = 0) := by
  induction l with
  | nil => simp
  | cons x rest ih =>
    intro a ha
    have hx := hl x (List.mem_cons_self x rest)
    have hrest : ∀ y ∈ rest, y = 0 ∨ y = 1 :=
      fun y hy => hl y (List.mem_cons_of_mem x hy)
    have hmin : min a x = 0 ∨ min a x = 1 := by
      rcases ha with h | h <;> rcases hx with h2 | h2 <;> simp [h, h2]
    rw [List.foldl_cons, ih hrest (min a x) hmin]
    constructor
    · rintro (hz | ⟨y, hy, hyz⟩)
      · rcases ha with h | h
        · exact Or.inl h
        · rcases hx with h2 | h2
          · exact Or.inr ⟨x, List.mem_cons_self x rest, h2⟩
          · omega
      · exact Or.inr ⟨y, List.mem_cons_of_mem x hy, hyz⟩
    · rintro (hz | ⟨y, hy, hyz⟩)
      · left; omega
      · rcases List.mem_cons.mp hy with hyx | hyr
        · left; omega
        · exact Or.inr ⟨y, hyr, hyz⟩

/-- C4: CheckSystemSolution returns false exactly when on some rank some
non-ghost cell's updated pressure is negative or its updated saturation
leaves [0, 1]; the global result is the min (logical AND) over the per-rank
checks, so one violating cell on any rank rejects the step. -/
theorem check_system_solution_iff (sf : ℚ) (ranks : List (List CellCheckState)) :
    CheckSystemSolution sf ranks = false ↔
      ∃ cells ∈ ranks, ∃ c ∈ cells, c.ghostRank < 0 ∧
        (newPresOf sf c < 0 ∨ newSatOf sf c < 0 ∨ 1 < newSatOf sf c) := by
  have hvals : ∀ x ∈ ranks.map (localCheckOf sf), x = 0 ∨ x = 1 := by
    intro x hx
    obtain ⟨cells, _, rfl⟩ := List.mem_map.mp hx
    exact localCheckOf_zero_or_one sf cells
  unfold CheckSystemSolution
  split_ifs with h
  · simp only [eq_self_iff_true, true_iff]
    rw [foldl_min_eq_zero _ hvals 1 (Or.inr rfl)] at h
    rcases h with h | ⟨x, hx, hxz⟩
    · omega
    · obtain ⟨cells, hcells, rfl⟩ := List.mem_map.mp hx
      have := (checkFold_eq_zero sf cells 1).mp hxz
      rcases this with h1 | ⟨c, hc, hcv⟩
      · omega
      · exact ⟨cells, hcells, c, hc, hcv.1, hcv.2⟩
  · simp only [Bool.true_eq_false, false_iff]
    rintro ⟨cells, hcells, c, hc, hg, hv⟩
    apply h
    rw [foldl_min_eq_zero _ hvals 1 (Or.inr rfl)]
    refine Or.inr ⟨localCheckOf sf cells, List.mem_map_of_mem _ hcells, ?_⟩
    exact (checkFold_eq_zero sf cells 1).mpr (Or.inr ⟨c, hc, hg, hv⟩)

/-- C9: the bound checks are strict: a cell whose updated pressure is
exactly 0 and whose updated saturation is exactly 0 or exactly 1 is not
rejected. -/
theorem bounds_check_strict_inequalities (sf : ℚ) (c : CellCheckState)
    (hp : newPresOf sf c = 0) (hs : newSatOf sf c = 0 ∨ newSatOf sf c = 1) :
    CheckSystemSolution sf [[c]] = true := by
  have hnv : ¬ (c.ghostRank < 0 ∧ cellViolates sf c) := by
    rintro ⟨_, hv⟩
    have hv2 : newPresOf sf c < 0 ∨ newSatOf sf c < 0 ∨ 1 < newSatOf sf c := hv
    rcases hs with hsat | hsat <;> rcases hv2 with h1 | h1 | h1 <;>
      simp only [hp, hsat] at h1 <;> norm_num at h1
  have hl : localCheckOf sf [c] = 1 := by
    rcases localCheckOf_zero_or_one sf [c] with h0 | h1
    · exfalso
      have h0f : List.foldl (checkCellStep sf) 1 [c] = 0 := h0
      rcases (checkFold_eq_zero sf [c] 1).mp h0f with h | ⟨x, hx, hxv⟩
      · omega
      · rw [List.mem_singleton] at hx
        subst hx
        exact hnv hxv
    · exact h1
  simp [CheckSystemSolution, hl]

/-- C9 witness: a concrete non-ghost cell whose updated pressure is exactly
0 and whose updated saturation is exactly 1 is accepted. -/
theorem bounds_check_strict_inequalities_witness :
    CheckSystemSolution 1 [[⟨-1, 0, 0, 1, 0, 0, 0⟩]] = true :=
  bounds_check_strict_inequalities 1 ⟨-1, 0, 0, 1, 0, 0, 0⟩
    (by norm_num [newPresOf]) (Or.inr (by norm_num [newSatOf]))

/-! ## DamageVolDevUpdates (DamageVolDev.hpp)
GetDegradationValue (lines 61-71) and
calculateActiveStrainEnergyDensity (lines 151-169).  The base constitutive
energy UPDATE_BASE::calculateStrainEnergyDensity is an out-of-scope
collaborator (spec section 6: a pure evaluate contract) and enters the sed
computation as the input field baseSED. -/

/-- Lorentz-type degradation function: with
m = criticalFractureEnergy / (2 * lengthScale * criticalStrainEnergy) and
p = 1, returns (1-d)^2 / ((1-d)^2 + m*d*(1+p*d)) at damage value d. -/
def GetDegradationValue (criticalFractureEnergy lengthScale criticalStrainEnergy d : ℚ) : ℚ :=
  let m := criticalFractureEnergy / (2 * lengthScale * criticalStrainEnergy)
  let p : ℚ := 1
  (1 - d) ^ 2 / ((1 - d) ^ 2 + m * d * (1 + p * d))

/-- C10: for damage d in [0, 1] and positive modulus ratio
m = Gc / (2 * lengthScale * psic), the degradation value lies in [0, 1],
equals 1 at d = 0 and equals 0 at d = 1. -/
theorem degradation_value_bounds (Gc lengthScale psic d : ℚ)
    (hm : 0 < Gc / (2 * lengthScale * psic)) (h0 : 0 ≤ d) (h1 : d ≤ 1) :
    0 ≤ GetDegradationValue Gc lengthScale psic d ∧
    GetDegradationValue Gc lengthScale psic d ≤ 1 ∧
    (d = 0 → GetDegradationValue Gc lengthScale psic d = 1) ∧
    (d = 1 → GetDegradationValue Gc lengthScale psic d = 0) := by
  set m := Gc / (2 * lengthScale * psic) with hmdef
  have hnum : (0:ℚ) ≤ (1 - d) ^ 2 := sq_nonneg _
  have hextra : 0 ≤ m * d * (1 + 1 * d) := by
    have : (0:ℚ) ≤ 1 + 1 * d := by nlinarith
    positivity
  have hden : 0 < (1 - d) ^ 2 + m * d * (1 + 1 * d) := by
    rcases eq_or_lt_of_le h0 with hd0 | hd0
    · rw [← hd0]
      norm_num
    · have : 0 < m * d * (1 + 1 * d) := by
        have : (0:ℚ) < 1 + 1 * d := by nlinarith
        positivity
      linarith
  refine ⟨?_, ?_, ?_, ?_⟩
  · exact div_nonneg hnum (le_of_lt hden)
  · rw [GetDegradationValue, ← hmdef]
    rw [div_le_one hden]
    linarith
  · intro hd
    subst hd
    rw [GetDegradationValue]
    norm_num
  · intro hd
    subst hd
    rw [GetDegradationValue]
    norm_num

/-- C10 witness at Gc = 1, lengthScale = 1/2, psic = 1, d = 1/2
(m = 1, value = 1/4). -/
theorem degradation_value_bounds_witness :
    0 ≤ GetDegradationValue 1 (1/2) 1 (1/2) ∧
    GetDegradationValue 1 (1/2) 1 (1/2) ≤ 1 ∧
    ((1:ℚ)/2 = 0 → GetDegradationValue 1 (1/2) 1 (1/2) = 1) ∧
    ((1:ℚ)/2 = 1 → GetDegradationValue 1 (1/2) 1 (1/2) = 0) :=
  degradation_value_bounds 1 (1/2) 1 (1/2) (by norm_num) (by norm_num) (by norm_num)

/-- The inputs of one call to calculateActiveStrainEnergyDensity at a fixed
(k, q): the collaborator-computed base strain energy density, the three
diagonal stress components, and the bulk modulus K. -/
structure SEDInput where
  baseSED : ℚ
  stress0 : ℚ
  stress1 : ℚ
  stress2 : ℚ
  bulkK : ℚ
deriving DecidableEq

/-- The candidate volumetric-deviatoric active strain energy density:
sed = baseSED - compressionIndicator * (trace/3)^2 / (2K), with
compressionIndicator = 1 exactly when the stress trace is negative. -/
def activeSED (inp : SEDInput) : ℚ :=
  let traceOfStress := inp.stress0 + inp.stress1 + inp.stress2
  let compressionIndicator : ℚ := if traceOfStress < 0 then 1 else 0
  inp.baseSED - compressionIndicator * (traceOfStress / 3) * (traceOfStress / 3) / (2 * inp.bulkK)

/-- One call to calculateActiveStrainEnergyDensity: the stored history
m_strainEnergyDensity(k, q) is raised to sed when sed exceeds it, and the
(new stored value, returned value) pair is produced; the function returns
the stored history after the update. -/
def calculateActiveStrainEnergyDensity (h : ℚ) (inp : SEDInput) : ℚ × ℚ :=
  let sed := activeSED inp
  let hNew := if sed > h then sed else h
  (hNew, hNew)

/-- The stored history after a sequence of calls starting from h0. -/
def runSED (h0 : ℚ) (inps : List SEDInput) : ℚ :=
  inps.foldl (fun h inp => (calculateActiveStrainEnergyDensity h inp).1) h0

/-- One call never decreases the stored history. -/
theorem sedStep_mono (h : ℚ) (inp : SEDInput) :
    h ≤ (calculateActiveStrainEnergyDensity h inp).1 := by
  simp only [calculateActiveStrainEnergyDensity]
  split_ifs with hgt
  · exact le_of_lt hgt
  · exact le_refl h

/-- A call sequence never decreases the stored history. -/
theorem runSED_le (h : ℚ) (inps : List SEDInput) : h ≤ runSED h inps := by
  induction inps generalizing h with
  | nil => exact le_refl h
  | cons inp rest ih =>
    calc h ≤ (calculateActiveStrainEnergyDensity h inp).1 := sedStep_mono h inp
    _ ≤ runSED ((calculateActiveStrainEnergyDensity h inp).1) rest := ih _
    _ = runSED h (inp :: rest) := rfl

/-- C5: the strain-energy-density history is non-decreasing across any
sequence of calls (the value after a longer prefix dominates the value after
any shorter prefix); a candidate energy not exceeding the stored history
leaves it unchanged; and the returned value equals the updated stored
history. -/
theorem strain_energy_history_monotone :
    (∀ (h0 : ℚ) (l1 l2 : List SEDInput), runSED h0 l1 ≤ runSED h0 (l1 ++ l2)) ∧
    (∀ (h : ℚ) (inp : SEDInput), activeSED inp ≤ h →
      calculateActiveStrainEnergyDensity h inp = (h, h)) ∧
    (∀ (h : ℚ) (inp : SEDInput),
      (calculateActiveStrainEnergyDensity h inp).2 =
        (calculateActiveStrainEnergyDensity h inp).1) := by
  refine ⟨?_, ?_, ?_⟩
  · intro h0 l1 l2
    rw [show runSED h0 (l1 ++ l2) = runSED (runSED h0 l1) l2 from
          List.foldl_append _ _ _ _]
    exact runSED_le _ l2
  · intro h inp hle
    simp only [calculateActiveStrainEnergyDensity]
    rw [if_neg (not_lt.mpr hle)]
  · intro h inp
    rfl

/-- C5 witness: a concrete two-call run and a concrete discarded lower
candidate. -/
theorem strain_energy_history_monotone_witness :
    runSED 0 [⟨3, 0, 0, 0, 1⟩] ≤ runSED 0 ([⟨3, 0, 0, 0, 1⟩] ++ [⟨1, 0, 0, 0, 1⟩]) ∧
    calculateActiveStrainEnergyDensity 5 ⟨1, 0, 0, 0, 1⟩ = (5, 5) :=
  ⟨strain_energy_history_monotone.1 0 [⟨3, 0, 0, 0, 1⟩] [⟨1, 0, 0, 0, 1⟩],
   strain_energy_history_monotone.2.1 5 ⟨1, 0, 0, 0, 1⟩ (by norm_num [activeSED])⟩

/-! ## TwoPhaseBase::InitializePreSubGroups phase mapping
(TwoPhaseBase.cpp lines 223-285).  NUM_PHASES = 2, so the model takes the
two fluid-model and two relperm-model phase names directly.  A
GEOSX_ERROR_IF abort is modelled as Except.error. -/

/-- Modelled from the spec: the RowOffset enum of TwoPhaseBase.hpp is not
under src/; spec section 3 fixes wetting phase to row offset 0 and
non-wetting phase to row offset 1. -/
def RowOffsetWETTING : ℕ := 0

/-- Modelled from the spec: the non-wetting row offset (see RowOffsetWETTING). -/
def RowOffsetNONWETTING : ℕ := 1

/-- The phase-name consistency check and wetting/non-wetting classification
of InitializePreSubGroups: each phase name must match between the fluid and
relperm models at the same index (lines 249-255), then the hard-coded name
patterns decide which index is the wetting phase (lines 257-273), and
m_phaseToRow is filled with the row offsets (lines 276-278).  The returned
list is m_phaseToRow. -/
def phaseNameToRowInit (f0 f1 r0 r1 : String) : Except String (List ℕ) :=
  if f0 ≠ r0 ∨ f1 ≠ r1 then
    Except.error "Phase in fluid model does not match phase in relperm model"
  else if (f0 = "oil" ∧ f1 = "gas") ∨ (f1 = "oil" ∧ f0 = "water") then
    Except.ok [RowOffsetWETTING, RowOffsetNONWETTING]
  else if (f1 = "oil" ∧ f0 = "gas") ∨ (f0 = "oil" ∧ f1 = "water") then
    Except.ok [RowOffsetNONWETTING, RowOffsetWETTING]
  else
    Except.error "TwoPhaseBase: the accepted phase names are water, oil, and gas"

/-- Whether initialization aborted with a configuration error. -/
def isConfigError : Except String (List ℕ) → Bool
  | Except.error _ => true
  | Except.ok _ => false

/-- C6 counterexample: with fluid phases ("water","oil") and relperm phases
("oil","water") the per-index name check fires and initialization aborts
with a configuration error, so no phase-to-row mapping is produced. -/
theorem phase_order_mismatch_is_error :
    isConfigError (phaseNameToRowInit "water" "oil" "oil" "water") = true := by
  rfl

/-- C6 (amended): with matching phase-name order ("water","oil") in both
models, the wetting phase water (index 0) maps to row offset 0 and the
non-wetting phase oil (index 1) to row offset 1; and whenever the phase name
at any index differs between the two models, initialization raises a
configuration error. -/
theorem phase_row_mapping_amended :
    phaseNameToRowInit "water" "oil" "water" "oil" =
      Except.ok [RowOffsetWETTING, RowOffsetNONWETTING] ∧
    (∀ f0 f1 r0 r1 : String, f0 ≠ r0 ∨ f1 ≠ r1 →
      isConfigError (phaseNameToRowInit f0 f1 r0 r1) = true) := by
  constructor
  · rfl
  · intro f0 f1 r0 r1 h
    rw [phaseNameToRowInit, if_pos h]
    rfl

/-- C6 witness: a concrete mismatch at index 1 is rejected. -/
theorem phase_row_mapping_amended_witness :
    isConfigError (phaseNameToRowInit "water" "oil" "water" "gas") = true :=
  phase_row_mapping_amended.2 "water" "oil" "water" "gas"
    (Or.inr (by simp))

/-! ## TwoPhaseBase::UpdateState (TwoPhaseBase.cpp lines 95-216)
The cascade UpdateFluidModel -> UpdateSolidModel -> UpdateRelPermModel ->
UpdatePhaseMobility for one cell.  The constitutive models (MultiFluid
PointUpdate, solid StateUpdatePointPressure, relperm BatchUpdate) are
out-of-scope collaborators exposing pure evaluate contracts (spec section
6); they enter as function-valued inputs.  PhaseMobilityKernel::Launch lives
in TwoPhaseBaseKernels.hpp, which is not under src/. -/

/-- The primary unknowns of one cell: pressure and per-phase saturation with
their deltas. -/
structure CellPrimary where
  pres : ℚ
  dPres : ℚ
  sat0 : ℚ
  sat1 : ℚ
  dSat0 : ℚ
  dSat1 : ℚ
deriving DecidableEq

/-- The derived fields of one cell written by the state-update cascade. -/
structure CellDerived where
  dens0 : ℚ
  dens1 : ℚ
  dDens_dP0 : ℚ
  dDens_dP1 : ℚ
  visc0 : ℚ
  visc1 : ℚ
  dVisc_dP0 : ℚ
  dVisc_dP1 : ℚ
  pvMult : ℚ
  dPvMult_dP : ℚ
  newSat0 : ℚ
  newSat1 : ℚ
  relPerm0 : ℚ
  relPerm1 : ℚ
  dRelPerm_dS0 : ℚ
  dRelPerm_dS1 : ℚ
  mob0 : ℚ
  mob1 : ℚ
  dMob_dP0 : ℚ
  dMob_dP1 : ℚ
  dMob_dS0 : ℚ
  dMob_dS1 : ℚ
deriving DecidableEq

/-- One cell: primary unknowns plus derived fields. -/
structure CellState where
  primary : CellPrimary
  derived : CellDerived
deriving DecidableEq

/-- The out-of-scope constitutive collaborators as pure evaluate contracts:
fluid density/viscosity and their pressure derivatives per phase, the solid
pore-volume multiplier, and per-phase relative permeability as a function of
the two new saturations. -/
structure ConstitutiveModels where
  fluidDens0 : ℚ → ℚ
  fluidDens1 : ℚ → ℚ
  fluidDDens0 : ℚ → ℚ
  fluidDDens1 : ℚ → ℚ
  fluidVisc0 : ℚ → ℚ
  fluidVisc1 : ℚ → ℚ
  fluidDVisc0 : ℚ → ℚ
  fluidDVisc1 : ℚ → ℚ
  solidPvMult : ℚ → ℚ
  solidDPvMult : ℚ → ℚ
  relPermEval0 : ℚ → ℚ → ℚ
  relPermEval1 : ℚ → ℚ → ℚ
  dRelPermEval0 : ℚ → ℚ → ℚ
  dRelPermEval1 : ℚ → ℚ → ℚ

/-- UpdateFluidModel: fluid->PointUpdate(pres + dPres, ...) refreshes the
per-phase densities and viscosities and their pressure derivatives. -/
def UpdateFluidModel (cm : ConstitutiveModels) (s : CellState) : CellState :=
  let p := s.primary.pres + s.primary.dPres
  { s with derived := { s.derived with
      dens0 := cm.fluidDens0 p
      dens1 := cm.fluidDens1 p
      dDens_dP0 := cm.fluidDDens0 p
      dDens_dP1 := cm.fluidDDens1 p
      visc0 := cm.fluidVisc0 p
      visc1 := cm.fluidVisc1 p
      dVisc_dP0 := cm.fluidDVisc0 p
      dVisc_dP1 := cm.fluidDVisc1 p } }

/-- UpdateSolidModel: solid->StateUpdatePointPressure(pres + dPres, ...)
refreshes the pore-volume multiplier and its derivative. -/
def UpdateSolidModel (cm : ConstitutiveModels) (s : CellState) : CellState :=
  let p := s.primary.pres + s.primary.dPres
  { s with derived := { s.derived with
      pvMult := cm.solidPvMult p
      dPvMult_dP := cm.solidDPvMult p } }

/-- UpdateRelPermModel: newPhaseSat[ip] = phaseSat[ip] + dPhaseSat[ip], then
relPerm->BatchUpdate(newPhaseSat) refreshes the relative permeabilities and
their saturation derivatives. -/
def UpdateRelPermModel (cm : ConstitutiveModels) (s : CellState) : CellState :=
  let n0 := s.primary.sat0 + s.primary.dSat0
  let n1 := s.primary.sat1 + s.primary.dSat1
  { s with derived := { s.derived with
      newSat0 := n0
      newSat1 := n1
      relPerm0 := cm.relPermEval0 n0 n1
      relPerm1 := cm.relPermEval1 n0 n1
      dRelPerm_dS0 := cm.dRelPermEval0 n0 n1
      dRelPerm_dS1 := cm.dRelPermEval1 n0 n1 } }

/-- Modelled from the spec: PhaseMobilityKernel::Launch is declared in
TwoPhaseBaseKernels.hpp, which is not under src/; spec section 4.1 gives
phase mobility = relperm x density / viscosity with its partials w.r.t.
pressure and saturation via the chain rule.  It reads only the derived
fields just refreshed by the previous stages. -/
def UpdatePhaseMobility (s : CellState) : CellState :=
  let d := s.derived
  { s with derived := { d with
      mob0 := d.relPerm0 * d.dens0 / d.visc0
      mob1 := d.relPerm1 * d.dens1 / d.visc1
      dMob_dP0 := d.relPerm0 * (d.dDens_dP0 * d.visc0 - d.dens0 * d.dVisc_dP0)
                    / (d.visc0 * d.visc0)
      dMob_dP1 := d.relPerm1 * (d.dDens_dP1 * d.visc1 - d.dens1 * d.dVisc_dP1)
                    / (d.visc1 * d.visc1)
      dMob_dS0 := d.dRelPerm_dS0 * d.dens0 / d.visc0
      dMob_dS1 := d.dRelPerm_dS1 * d.dens1 / d.visc1 } }

/-- TwoPhaseBase::UpdateState: the four-stage cascade. -/
def UpdateState (cm : ConstitutiveModels) (s : CellState) : CellState :=
  UpdatePhaseMobility (UpdateRelPermModel cm (UpdateSolidModel cm (UpdateFluidModel cm s)))

/-- UpdateState over a subregion: the forAll loop visits each cell
independently. -/
def UpdateStateAll (cm : ConstitutiveModels) : List CellState → List CellState
  | [] => []
  | s :: rest => UpdateState cm s :: UpdateStateAll cm rest

/-- C7: UpdateState is idempotent for unchanged primary unknowns: a second
call reproduces exactly the derived fields of the first; it never writes the
primary unknowns; and over a subregion, cell i of the output depends only on
cell i of the input (no cross-cell writes). -/
theorem update_state_idempotent :
    (∀ (cm : ConstitutiveModels) (s : CellState),
      UpdateState cm (UpdateState cm s) = UpdateState cm s) ∧
    (∀ (cm : ConstitutiveModels) (s : CellState),
      (UpdateState cm s).primary = s.primary) ∧
    (∀ (cm : ConstitutiveModels) (cells : List CellState) (i : ℕ),
      (UpdateStateAll cm cells).get? i = (cells.get? i).map (UpdateState cm)) := by
  refine ⟨?_, ?_, ?_⟩
  · intro cm s
    rfl
  · intro cm s
    rfl
  · intro cm cells
    have hmap : UpdateStateAll cm cells = cells.map (UpdateState cm) := by
      induction cells with
      | nil => rfl
      | cons s rest ih => simp [UpdateStateAll, ih]
    intro i
    rw [hmap]
    exact List.get?_map _ _ _
